import Mathlib

/-!
Shallow embedding of the gee-rpc framework (Mock7DaysGolang): the codec layer,
the server connection handshake and request loop, the client call machinery,
the service reflector and the multi-server discovery, together with theorems
that settle the specification claims about them.

Go machine integers are modelled as `Nat` (no overflow is relevant to any
claim: sequence numbers and indices only grow or are reduced `% n`).
Go `nil`-able values are modelled with `Option`, Go `error` results with
`Except String` or `Option String`, and channels by their capacity.
-/

namespace GeeRPC

/-- Mirrors `codec.Header` (codec package, inside src/gee-rpc/client.go):
`ServiceMethod` is `"Service.Method"`, `Seq` the request number chosen by the
client (u64, modelled as `Nat`), `Error` the error string (empty on success). -/
structure Header where
  ServiceMethod : String
  Seq : Nat
  Error : String
deriving DecidableEq

/-- Mirrors `codec.GobType` = `"application/gob"`. -/
def GobType : String := "application/gob"

/-- Mirrors `codec.JsonType` = `"application/json"`. -/
def JsonType : String := "application/json"

/-- Whether `codec.NewCodecFuncMap` holds a constructor for a codec type.
The codec package `init` registers only `GobType`, so lookup succeeds exactly
for that key. -/
def hasCodecFunc (t : String) : Bool := t == GobType

/-- Mirrors `const MagicNumber = 0x3bef5c` (src/gee-rpc/server.go line 15). -/
def MagicNumber : Nat := 0x3bef5c

/-- Mirrors the Go struct `Option` (src/gee-rpc/server.go lines 17-20), the
first, JSON-encoded message of every connection. Named `ConnOption` because
`Option` is taken in Lean. -/
structure ConnOption where
  MagicNumber : Nat
  CodecType : String
deriving DecidableEq

/-- Mirrors `DefaultOption` (src/gee-rpc/server.go lines 22-25). -/
def DefaultOption : ConnOption :=
  { MagicNumber := MagicNumber, CodecType := GobType }

/-- Outcome of `Server.ServerConn` on one accepted connection, up to the
decision whether `serveCodec` is entered: whether the connection got closed,
whether any request was served, and how many frames were written on it. -/
structure ServerConnResult where
  connClosed : Bool
  served : Bool
  framesWritten : Nat
deriving DecidableEq

/-- Mirrors `Server.ServerConn` (src/gee-rpc/server.go lines 71-89).
`decoded` is the result of JSON-decoding the `Option` from the connection
(`none` = decode error); `serveFrames` stands for the number of frames the
request loop would write if it were entered. The deferred `conn.Close()` runs
on every path, so `connClosed` is always true; on the rejection paths the
function returns before `serveCodec`, writing nothing. -/
def ServerConn (decoded : Option ConnOption) (serveFrames : Nat) : ServerConnResult :=
  match decoded with
  | none => { connClosed := true, served := false, framesWritten := 0 }
  | some opt =>
    if opt.MagicNumber ≠ MagicNumber then
      { connClosed := true, served := false, framesWritten := 0 }
    else if ¬ hasCodecFunc opt.CodecType then
      { connClosed := true, served := false, framesWritten := 0 }
    else
      { connClosed := true, served := true, framesWritten := serveFrames }

/-- Mirrors `parseOptions` (src/unnamed/part_003 lines 194-207): no option or
a nil first option yields `DefaultOption`; more than one option is an error;
otherwise the option given by the caller is returned with its `MagicNumber` overwritten
by the default and an empty `CodecType` replaced by the default codec type. -/
def parseOptions (opts : List (Option ConnOption)) : Except String ConnOption :=
  if opts.length = 0 ∨ opts.headD none = none then .ok DefaultOption
  else if opts.length ≠ 1 then .error "number of options is more than 1"
  else
    match opts.headD none with
    | none => .ok DefaultOption
    | some opt =>
      .ok { opt with
            MagicNumber := DefaultOption.MagicNumber,
            CodecType := if opt.CodecType = "" then DefaultOption.CodecType
                         else opt.CodecType }

/-- Client-side `Call` (src/unnamed/part_003 lines 20-27), restricted to the
fields the claims are about. `Done` is the completion channel, modelled by its
capacity; `none` models a nil channel. `Args`/`Reply` are type-erased payloads
irrelevant to the claims and are omitted. -/
structure Call where
  Seq : Nat
  ServiceMethod : String
  Done : Option Nat
deriving DecidableEq

/-- Mirrors `Client.Go` (src/unnamed/part_003 lines 159-173) up to the
construction of the `Call`: a nil `done` is replaced by a fresh channel of
capacity 10; a non-nil unbuffered `done` hits `log.Panic` (modelled as
`.error`); otherwise the channel given by the caller is used as the `Done` of the `Call`.
The `Seq` field of the literal is the zero value (it is assigned later by
`registerCall`, which does not touch `Done`). -/
def Go (serviceMethod : String) (done : Option Nat) : Except String Call :=
  match done with
  | none => .ok { Seq := 0, ServiceMethod := serviceMethod, Done := some 10 }
  | some c =>
    if c = 0 then .error "rpc client: done channel is unbuffered"
    else .ok { Seq := 0, ServiceMethod := serviceMethod, Done := some c }

/-- Outcome of `GobCodec.Write`: the returned error, whether the buffered
writer was flushed, and whether the underlying connection was closed. -/
structure WriteResult where
  err : Option String
  flushed : Bool
  connClosed : Bool
deriving DecidableEq

namespace GobCodec

/-- Mirrors `GobCodec.Write` (codec package, src/gee-rpc/client.go
lines 349-365). The two booleans say whether gob encoding of the header
resp. the body succeeds. The deferred block always flushes the buffered
writer and closes the connection exactly when the returned error is
non-nil. -/
def Write (headerEncodeOk bodyEncodeOk : Bool) : WriteResult :=
  let err : Option String :=
    if ¬ headerEncodeOk then some "rpc: gob error encoding header"
    else if ¬ bodyEncodeOk then some "rpc: gob error encoding body"
    else none
  { err := err, flushed := true, connClosed := err.isSome }

end GobCodec

/-- Body of a response frame: either the sentinel `invalidRequest` (the empty
struct sent with error responses) or a reply value (type-erased, modelled as
`String`). -/
inductive Body where
  | invalidRequest
  | reply (v : String)
deriving DecidableEq

/-- One response frame on a connection: a header and a body, as written by a
single `cc.Write(h, body)` inside `sendResponse`. -/
structure Frame where
  h : Header
  body : Body
deriving DecidableEq

/-- Mirrors `Server.handleRequest` (src/gee-rpc/server.go lines 176-191).
`callErr` is the error returned by `req.svc.call` (none = success) and
`replyv` the content of `req.replyv` after the call. In the source, the error
branch sets `req.h.Error` and sends an `invalidRequest` response, and then —
there is no `return` in that branch — execution falls through to the
unconditional `sendResponse` of `req.replyv`, producing a second frame with
the same (mutated) header. -/
def handleRequest (h : Header) (callErr : Option String) (replyv : String) : List Frame :=
  match callErr with
  | some e =>
    let herr := { h with Error := e }
    [{ h := herr, body := .invalidRequest }, { h := herr, body := .reply replyv }]
  | none => [{ h := h, body := .reply replyv }]

/-- Index of the last occurrence of character `c` in `s`, mirroring Go
`strings.LastIndex(s, ".")` for the single-character separator used by
`findService`; `none` models the return value `-1`. -/
def lastIndex (s : String) (c : Char) : Option Nat :=
  match s.data.reverse.findIdx? (· = c) with
  | none => none
  | some j => some (s.data.length - 1 - j)

/-- Mirrors `Server.findService` (src/gee-rpc/server.go lines 46-64) over a
service map modelled as an association list from service name to the list of
registered method names. The three error strings follow the source (spelled
with "cannot" standing in for the original contraction). -/
def findService (serviceMap : List (String × List String)) (serviceMethod : String) :
    Except String (String × String) :=
  match lastIndex serviceMethod '.' with
  | none => .error ("rpc server: service/method request ill-formed:" ++ serviceMethod)
  | some dot =>
    let serviceName : String := ⟨serviceMethod.data.take dot⟩
    let methodName : String := ⟨serviceMethod.data.drop (dot + 1)⟩
    match serviceMap.lookup serviceName with
    | none => .error ("rpc server: cannot find service " ++ serviceName)
    | some methods =>
      if methodName ∈ methods then .ok (serviceName, methodName)
      else .error ("rpc server: cannot find method " ++ methodName)

/-- Outcome of `Server.readRequest`: the request (carrying its header) when
one was allocated (`none` when already the header read failed), the error, and
the number of `cc.ReadBody` calls the function performed on the connection. -/
structure ReadRequestResult where
  req : Option Header
  err : Option String
  bodyReads : Nat
deriving DecidableEq

/-- Mirrors `Server.readRequest` (src/gee-rpc/server.go lines 133-166).
`hdr` is the outcome of `readRequestHeader` (`none` = header decode error) and
`bodyReadOk` says whether the `cc.ReadBody` call would succeed. When
`findService` fails the source returns `req, err` at line 151, before the
`ReadBody` call at line 161, so no body read happens on that path. -/
def readRequest (serviceMap : List (String × List String)) (hdr : Option Header)
    (bodyReadOk : Bool) : ReadRequestResult :=
  match hdr with
  | none => { req := none, err := some "rpc server: read header error", bodyReads := 0 }
  | some h =>
    match findService serviceMap h.ServiceMethod with
    | .error e => { req := some h, err := some e, bodyReads := 0 }
    | .ok _ =>
      if bodyReadOk then { req := some h, err := none, bodyReads := 1 }
      else { req := some h, err := some "rpc server: read body err", bodyReads := 1 }

/-- Frames that `serveCodec` itself writes in one iteration of its request
loop (src/gee-rpc/server.go lines 98-106): when `readRequest` reports an error
and the request is non-nil, it sets `Error` on the request header and sends a
single `invalidRequest` response; otherwise it writes nothing directly (the
spawned `handleRequest` is modelled separately). -/
def serveCodecErrorFrames (r : ReadRequestResult) : List Frame :=
  match r.err, r.req with
  | some e, some h => [{ h := { h with Error := e }, body := .invalidRequest }]
  | _, _ => []

/-- State of a pending client call: its error slot and how many completion
signals were sent on its `Done` channel. -/
structure PendingCall where
  Error : Option String
  doneSignals : Nat
deriving DecidableEq

/-- Client state (src/unnamed/part_003 lines 37-47) restricted to the fields
the claims are about: the sequence counter, the pending table (`Seq → Call`,
modelled as an association list), and the `closing`/`shutdown` flags. -/
structure ClientState where
  seq : Nat
  pending : List (Nat × PendingCall)
  closing : Bool
  shutdown : Bool
deriving DecidableEq

/-- Mirrors `Client.Close` (src/unnamed/part_003 lines 54-62): under the state
lock, if already `closing` it returns `ErrShutdown`; otherwise it sets
`closing` and closes the codec. It never touches `pending`. -/
def Close (st : ClientState) : Option String × ClientState :=
  if st.closing then (some "connection is shut down", st)
  else (none, { st with closing := true })

/-- Mirrors `Client.terminateCalls` (src/unnamed/part_003 lines 93-103): with
both locks held it sets `shutdown` and, for each call in `pending`, sets the
`Error` of the call and signals `done()`; the loop never deletes entries from
`pending`. -/
def terminateCalls (st : ClientState) (err : String) : ClientState :=
  { st with
    shutdown := true,
    pending := st.pending.map fun p =>
      (p.1, { p.2 with Error := some err, doneSignals := p.2.doneSignals + 1 }) }

/-- Model of a `reflect.Type` as consumed by the registration filter: the
`Name()` of the type, its `PkgPath()`, and whether its `Kind()` is `reflect.Ptr`. -/
structure GoType where
  name : String
  pkgPath : String
  isPtr : Bool
deriving DecidableEq

/-- Mirrors `ast.IsExported`: the name starts with an upper-case letter. -/
def isExported (name : String) : Bool :=
  match name.data with
  | [] => false
  | ch :: _ => ch.isUpper

/-- Mirrors `isExportedOrBuiltinType` (src/unnamed/part_001 lines 121-124). -/
def isExportedOrBuiltinType (t : GoType) : Bool :=
  isExported t.name || t.pkgPath == ""

/-- A method of the receiver type as seen through `reflect`: `numIn` counts
the receiver, `outIsError` says whether `Out(0)` is the `error` interface
type, `argType` is `In(1)` and `replyType` is `In(2)` (meaningful when
`numIn = 3`). -/
structure GoMethod where
  name : String
  numIn : Nat
  numOut : Nat
  outIsError : Bool
  argType : GoType
  replyType : GoType
deriving DecidableEq

/-- Mirrors the recorded `methodType` (src/unnamed/part_001 lines 22-27)
restricted to its type fields. -/
structure MethodType where
  ArgType : GoType
  ReplyType : GoType
deriving DecidableEq

/-- Mirrors `service.registerMethods` (src/unnamed/part_001 lines 82-109):
keep a method iff it has three inputs (receiver, arg, reply), one output, the
output is `error`, and both arg and reply types are exported or built-in.
The source performs no check on the kind of the reply type. -/
def registerMethods (methods : List GoMethod) : List (String × MethodType) :=
  methods.filterMap fun m =>
    if m.numIn ≠ 3 ∨ m.numOut ≠ 1 then none
    else if !m.outIsError then none
    else if !isExportedOrBuiltinType m.argType || !isExportedOrBuiltinType m.replyType then
      none
    else some (m.name, { ArgType := m.argType, ReplyType := m.replyType })

/-- Mirrors `SelectMode` (src/unnamed/part_000 lines 11-16). -/
inductive SelectMode where
  | RandomSelect
  | RoundRobinSelect
deriving DecidableEq

/-- Mirrors `MultiServersDiscovery` (src/unnamed/part_000 lines 29-34)
restricted to the fields the claims are about: the server list and the
round-robin `index`. The `rand.Rand` source is modelled by passing its draws
as explicit arguments where consumed. -/
structure MultiServersDiscovery where
  servers : List String
  index : Nat
deriving DecidableEq

/-- Mirrors `NewMultiServersDiscovery` (src/unnamed/part_000 lines 83-90):
`randomInit` stands for the draw `d.r.Intn(math.MaxInt32 - 1)` that seeds the
round-robin index at construction. -/
def NewMultiServersDiscovery (servers : List String) (randomInit : Nat) :
    MultiServersDiscovery :=
  { servers := servers, index := randomInit }

/-- Mirrors `MultiServersDiscovery.Get` (src/unnamed/part_000 lines 56-73).
`randomDraw` stands for the value of `d.r.Intn(n)` consumed by the
RandomSelect branch (always `< n` in the source). For RoundRobinSelect the
selected address is `servers[index % n]` and the index becomes
`(index + 1) % n`. -/
def Get (d : MultiServersDiscovery) (mode : SelectMode) (randomDraw : Nat) :
    Except String (String × MultiServersDiscovery) :=
  let n := d.servers.length
  if n = 0 then .error "rpc discovery: no available servers"
  else
    match mode with
    | .RandomSelect => .ok (d.servers.getD randomDraw "", d)
    | .RoundRobinSelect =>
      .ok (d.servers.getD (d.index % n) "", { d with index := (d.index + 1) % n })

/-- Runs `Get RoundRobinSelect` `k` consecutive times (no `Update` in
between), collecting the returned addresses in call order together with the
final discovery state. -/
def getRoundRobinN : Nat → MultiServersDiscovery → List String × MultiServersDiscovery
  | 0, d => ([], d)
  | Nat.succ k, d =>
    match Get d .RoundRobinSelect 0 with
    | .error _ => ([], d)
    | .ok (s, d2) =>
      let r := getRoundRobinN k d2
      (s :: r.1, r.2)

/-- Evaluation of `Get` in round-robin mode on a non-empty list. -/
lemma Get_roundRobin (L : List String) (i : Nat) (hL : L.length ≠ 0) :
    Get ⟨L, i⟩ .RoundRobinSelect 0 =
      .ok (L.getD (i % L.length) "", ⟨L, (i + 1) % L.length⟩) := by
  simp [Get, hL]

/-- The addresses produced by `k` consecutive round-robin calls starting at
index `i` are `servers[(i + j) % n]` for `j = 0, …, k-1`. -/
lemma getRoundRobinN_fst (L : List String) (hL : L.length ≠ 0) :
    ∀ k i : Nat, (getRoundRobinN k ⟨L, i⟩).1 =
      (List.range k).map fun j => L.getD ((i + j) % L.length) "" := by
  intro k
  induction k with
  | zero => intro i; simp [getRoundRobinN]
  | succ k ih =>
    intro i
    have hstep : (getRoundRobinN (k + 1) ⟨L, i⟩).1 =
        L.getD (i % L.length) "" :: (getRoundRobinN k ⟨L, (i + 1) % L.length⟩).1 := by
      simp [getRoundRobinN, Get_roundRobin L i hL]
    rw [hstep, ih ((i + 1) % L.length), List.range_succ_eq_map, List.map_cons,
      List.map_map]
    have hfun : ((fun j => L.getD ((i + j) % L.length) "") ∘ Nat.succ) =
        fun j => L.getD (((i + 1) % L.length + j) % L.length) "" := by
      funext j
      have hidx : ((i + 1) % L.length + j) % L.length = (i + Nat.succ j) % L.length := by
        rw [Nat.mod_add_mod]
        congr 1
        omega

      simp [Function.comp, hidx]
    rw [hfun]
    simp

/-- The full cycle of `n` round-robin calls is the server list rotated by the
starting index reduced mod `n`. -/
lemma getRoundRobinN_rotate (L : List String) (i : Nat) (hL : 0 < L.length) :
    (getRoundRobinN L.length ⟨L, i⟩).1 = L.rotate (i % L.length) := by
  rw [getRoundRobinN_fst L (Nat.pos_iff_ne_zero.mp hL) L.length i]
  apply List.ext_getElem
  · simp
  · intro k h1 h2
    simp only [List.getElem_map, List.getElem_range, List.getElem_rotate]
    rw [List.getD_eq_getElem L "" (Nat.mod_lt _ hL)]
    congr 1
    rw [Nat.add_mod_mod, Nat.add_comm i k]

/-- C5: if the MagicNumber of the decoded Option differs from 0x3bef5c, or its
CodecType has no constructor in the codec registry, `ServerConn` closes the
connection without serving any request and without writing any frame. -/
theorem ServerConn_rejects (opt : ConnOption) (serveFrames : Nat)
    (h : opt.MagicNumber ≠ MagicNumber ∨ hasCodecFunc opt.CodecType = false) :
    ServerConn (some opt) serveFrames =
      { connClosed := true, served := false, framesWritten := 0 } := by
  rcases h with h | h
  · simp [ServerConn, h]
  · by_cases hm : opt.MagicNumber = MagicNumber <;> simp [ServerConn, hm, h]

/-- Witness for C5: an option with magic number 0 is rejected. -/
theorem ServerConn_rejects_witness :
    ServerConn (some { MagicNumber := 0, CodecType := GobType }) 5 =
      { connClosed := true, served := false, framesWritten := 0 } :=
  ServerConn_rejects { MagicNumber := 0, CodecType := GobType } 5 (Or.inl (by decide))

/-- C6: `parseOptions` applied to exactly one non-nil option returns an option
whose `MagicNumber` is the default `0x3bef5c` regardless of the value the
caller supplied, and whose empty `CodecType` is replaced by the gob codec
type. -/
theorem parseOptions_overwrites_magic (opt : ConnOption) :
    parseOptions [some opt] =
      .ok { opt with
            MagicNumber := MagicNumber,
            CodecType := if opt.CodecType = "" then GobType else opt.CodecType } := by
  simp [parseOptions, DefaultOption]

/-- C8: `Client.Go` raises a hard error for a non-nil `done` channel of
capacity 0, and never raises it for a `done` channel of capacity at least 1. -/
theorem Go_done_capacity (serviceMethod : String) (c : Nat) :
    Go serviceMethod (some 0) = .error "rpc client: done channel is unbuffered" ∧
    (1 ≤ c →
      Go serviceMethod (some c) =
        .ok { Seq := 0, ServiceMethod := serviceMethod, Done := some c }) := by
  constructor
  · rfl
  · intro hc
    have hne : c ≠ 0 := Nat.one_le_iff_ne_zero.mp hc
    simp [Go, hne]

/-- Witness for C8 at capacity 1. -/
theorem Go_done_capacity_witness :
    Go "Foo.Sum" (some 0) = .error "rpc client: done channel is unbuffered" ∧
    (1 ≤ 1 →
      Go "Foo.Sum" (some 1) =
        .ok { Seq := 0, ServiceMethod := "Foo.Sum", Done := some 1 }) :=
  Go_done_capacity "Foo.Sum" 1

/-- C10: `Client.Go` with a nil `done` channel does not fail: it returns a
`Call` whose `Done` field is a fresh non-nil buffered channel of
capacity 10. -/
theorem Go_nil_done (serviceMethod : String) :
    Go serviceMethod none =
      .ok { Seq := 0, ServiceMethod := serviceMethod, Done := some 10 } ∧
    (some 10 : Option Nat) ≠ none ∧ 1 ≤ 10 := by
  exact ⟨rfl, by decide, by decide⟩

/-- C9: whenever `GobCodec.Write` returns a non-nil error it has closed the
underlying connection (`connClosed` equals `err.isSome`, so on success the
connection stays open), and the buffered writer is flushed on every path. -/
theorem GobCodec_Write_error_fatal (headerEncodeOk bodyEncodeOk : Bool) :
    (GobCodec.Write headerEncodeOk bodyEncodeOk).connClosed =
      (GobCodec.Write headerEncodeOk bodyEncodeOk).err.isSome ∧
    (GobCodec.Write headerEncodeOk bodyEncodeOk).flushed = true := by
  cases headerEncodeOk <;> cases bodyEncodeOk <;> exact ⟨rfl, rfl⟩

/-- C1 (violated by the code): at a request whose method invocation fails,
`handleRequest` writes two response frames, not one — the error response and,
because the error branch does not return, a second frame with the same mutated
header — while a successful invocation yields exactly one frame with the
`Seq` of the request. -/
theorem handleRequest_two_frames_on_error :
    (handleRequest { ServiceMethod := "Foo.Sum", Seq := 7, Error := "" }
        (some "boom") "0").length = 2 ∧
    (handleRequest { ServiceMethod := "Foo.Sum", Seq := 7, Error := "" }
        (some "boom") "0").length ≠ 1 ∧
    handleRequest { ServiceMethod := "Foo.Sum", Seq := 7, Error := "" } none "4" =
      [{ h := { ServiceMethod := "Foo.Sum", Seq := 7, Error := "" },
         body := .reply "4" }] := by
  decide

/-- C2 counterexample: for a request whose service lookup fails (service `Bar`
is not registered), `readRequest` performs zero `ReadBody` calls — the body is
not read into a throwaway container, contrary to the claim. -/
theorem readRequest_skips_body_on_lookup_failure :
    findService [("Foo", ["Sum"])] "Bar.Sum" =
      .error "rpc server: cannot find service Bar" ∧
    (readRequest [("Foo", ["Sum"])]
        (some { ServiceMethod := "Bar.Sum", Seq := 1, Error := "" }) true).bodyReads = 0 :=
  ⟨rfl, rfl⟩

/-- C2 (amended): when service/method lookup fails for a request header, the
server performs no body read at all, and sends exactly one error response that
reuses the original header (same `ServiceMethod` and `Seq`) with its `Error`
field set to the lookup error. -/
theorem readRequest_lookup_failure_error_response
    (serviceMap : List (String × List String)) (h : Header) (bodyReadOk : Bool)
    (e : String) (hfind : findService serviceMap h.ServiceMethod = .error e) :
    (readRequest serviceMap (some h) bodyReadOk).bodyReads = 0 ∧
    serveCodecErrorFrames (readRequest serviceMap (some h) bodyReadOk) =
      [{ h := { h with Error := e }, body := .invalidRequest }] := by
  simp [readRequest, hfind, serveCodecErrorFrames]

/-- Witness for the amended C2: unknown method `Mul` on registered service
`Foo`. -/
theorem readRequest_lookup_failure_error_response_witness :
    (readRequest [("Foo", ["Sum"])]
        (some { ServiceMethod := "Foo.Mul", Seq := 9, Error := "" }) true).bodyReads = 0 ∧
    serveCodecErrorFrames
        (readRequest [("Foo", ["Sum"])]
          (some { ServiceMethod := "Foo.Mul", Seq := 9, Error := "" }) true) =
      [{ h := { ServiceMethod := "Foo.Mul", Seq := 9,
                Error := "rpc server: cannot find method Mul" },
         body := .invalidRequest }] :=
  readRequest_lookup_failure_error_response [("Foo", ["Sum"])]
    { ServiceMethod := "Foo.Mul", Seq := 9, Error := "" } true
    "rpc server: cannot find method Mul" rfl

/-- C3 counterexample: starting from a client with one pending call, the
pending table is non-empty after `Close` and non-empty after
`terminateCalls` — neither removes entries. -/
theorem pending_not_emptied :
    (Close { seq := 2, pending := [(1, { Error := none, doneSignals := 0 })],
             closing := false, shutdown := false }).2.pending ≠ [] ∧
    (terminateCalls { seq := 2, pending := [(1, { Error := none, doneSignals := 0 })],
                      closing := false, shutdown := false } "EOF").pending ≠ [] := by
  decide

/-- C3 (amended): `Close` leaves the pending table unchanged, and
`terminateCalls` sets `shutdown` and rewrites every pending entry in place —
setting its `Error` and signalling `done` once — without removing any entry,
so the pending table keeps all its entries after either operation. -/
theorem close_terminateCalls_keep_pending (st : ClientState) (err : String) :
    (Close st).2.pending = st.pending ∧
    (terminateCalls st err).pending =
      st.pending.map (fun p =>
        (p.1, { p.2 with Error := some err, doneSignals := p.2.doneSignals + 1 })) ∧
    (terminateCalls st err).shutdown = true := by
  refine ⟨?_, rfl, rfl⟩
  by_cases h : st.closing <;> simp [Close, h]

/-- C4 (violated by the code): `registerMethods` records a method whose reply
type is not a pointer — a method with signature `Mul(int, int) error` passes
every check of the filter (three inputs, one `error` output, built-in arg and
reply types) and is recorded with a non-pointer `ReplyType`, although the
eligibility comment in the source (and `newReplyv`, which calls
`ReplyType.Elem()`) requires the second parameter to be a pointer. -/
theorem registerMethods_records_nonpointer_reply :
    registerMethods [{ name := "Mul", numIn := 3, numOut := 1, outIsError := true,
                       argType := { name := "int", pkgPath := "", isPtr := false },
                       replyType := { name := "int", pkgPath := "", isPtr := false } }] =
      [("Mul", { ArgType := { name := "int", pkgPath := "", isPtr := false },
                 ReplyType := { name := "int", pkgPath := "", isPtr := false } })] ∧
    ({ name := "int", pkgPath := "", isPtr := false } : GoType).isPtr = false := by
  decide

/-- C7: for a `MultiServersDiscovery` over `N ≥ 1` servers with no `Update`
in between, `N` consecutive `Get(RoundRobinSelect)` calls return the server
list rotated by the construction-time random index reduced mod `N` — a
permutation of the list, hence each of the `N` addresses exactly once. -/
theorem roundRobin_full_cycle (servers : List String) (randomInit : Nat)
    (h : 0 < servers.length) :
    (getRoundRobinN servers.length (NewMultiServersDiscovery servers randomInit)).1 =
      servers.rotate (randomInit % servers.length) ∧
    ((getRoundRobinN servers.length (NewMultiServersDiscovery servers randomInit)).1).Perm
      servers := by
  have h1 := getRoundRobinN_rotate servers randomInit h
  exact ⟨h1, h1 ▸ List.rotate_perm servers (randomInit % servers.length)⟩

/-- Witness for C7: three servers, random initial index 7. -/
theorem roundRobin_full_cycle_witness :
    (getRoundRobinN (["a", "b", "c"] : List String).length
        (NewMultiServersDiscovery ["a", "b", "c"] 7)).1 =
      (["a", "b", "c"] : List String).rotate (7 % (["a", "b", "c"] : List String).length) ∧
    ((getRoundRobinN (["a", "b", "c"] : List String).length
        (NewMultiServersDiscovery ["a", "b", "c"] 7)).1).Perm ["a", "b", "c"] :=
  roundRobin_full_cycle ["a", "b", "c"] 7 (by decide)

end GeeRPC
